import Mathlib

/-!
Shallow embedding of `src/main.py` (Nutrition AI Backend): the two POST
handlers `/recommendations` and `/recipes-by-ingredient`, their pydantic
request/response models, prompt composition, reply-envelope text
extraction, JSON parsing and schema validation.

The external pieces are modelled as parameters:
  * the credential (`os.getenv("OPENAI_API_KEY")`) as an `Option String`
    (`none` = unset; the source also rejects the empty string via Python
    truthiness);
  * the completion boundary (`client.responses.create`) as a function
    from the call arguments to `Except String Envelope` (`.error e`
    models the SDK raising an exception whose `str` is `e`);
  * `json.loads` as a function `String → Option Json` (`none` models
    `json.JSONDecodeError`; `json.loads` raises nothing else on a `str`).
Each handler returns its HTTP result together with the list of outbound
boundary calls it made, so that call-count properties are statable.
-/

namespace HealthyMe

/-- JSON values as produced by `json.loads` (numbers restricted to the
integers, which is all the response schemas accept). -/
inductive Json where
  | null
  | bool (b : Bool)
  | num (n : Int)
  | str (s : String)
  | arr (elems : List Json)
  | obj (fields : List (String × Json))

/-- Dictionary lookup on a parsed JSON object, first match wins. -/
def lookupField : List (String × Json) → String → Option Json
  | [], _ => none
  | (k, v) :: rest, key => if k = key then some v else lookupField rest key

/-- Field access on a JSON value: a key lookup on objects, `none` on
every other constructor (pydantic construction from a non-dict fails). -/
def Json.getField : Json → String → Option Json
  | .obj fields, key => lookupField fields key
  | _, _ => none

/-- An `int`-typed pydantic field accepts exactly a JSON number here. -/
def Json.asInt : Json → Option Int
  | .num n => some n
  | _ => none

/-- A `str`-typed pydantic field accepts exactly a JSON string here. -/
def Json.asStr : Json → Option String
  | .str s => some s
  | _ => none

/-- A `List[str]`-typed pydantic field: a JSON array of strings. -/
def Json.asStrList : Json → Option (List String)
  | .arr elems => elems.mapM Json.asStr
  | _ => none

/-- Request model of POST /recommendations (`RecommendationRequest` in
`src/main.py`): goal/dietType/allergy required, the rest optional. -/
structure RecommendationRequest where
  goal : String
  dietType : String
  allergy : String
  age : Option Int
  gender : Option String
  height : Option Int
  weight : Option Int

/-- Request model of POST /recipes-by-ingredient
(`IngredientRecipeRequest`): `ingredient` required, the rest optional,
`servings` defaulting to `some 1` when absent from the body. -/
structure IngredientRecipeRequest where
  ingredient : String
  goal : Option String
  dietType : Option String
  allergy : Option String
  servings : Option Int

/-- Nutrient sub-object (`Nutrients` in `src/main.py`). -/
structure Nutrients where
  protein_g : Int
  carbs_g : Int
  fiber_g : Int

/-- Response model of POST /recommendations (`RecommendationResponse`). -/
structure RecommendationResponse where
  breakfast : String
  lunch : String
  dinner : String
  totalCalories : Int
  nutrients : Nutrients

/-- One recipe of the ingredient endpoint (`RecipeItem`). -/
structure RecipeItem where
  name : String
  ingredients : List String
  steps : List String
  calories : Int
  nutrients : Nutrients

/-- Response model of POST /recipes-by-ingredient
(`IngredientRecipeResponse`). -/
structure IngredientRecipeResponse where
  ingredient : String
  recipes : List RecipeItem

/-- Validation of `Nutrients(**·)`: each field required, an integer, and
within its inclusive `Field(ge, le)` bound (protein 0–500, carbs 0–800,
fiber 0–200). Extra keys are ignored, as pydantic ignores unexpected
keyword arguments by default. -/
def Nutrients.validate (j : Json) : Option Nutrients :=
  (j.getField "protein_g").bind fun pj => pj.asInt.bind fun p =>
  if 0 ≤ p ∧ p ≤ 500 then
    (j.getField "carbs_g").bind fun cj => cj.asInt.bind fun c =>
    if 0 ≤ c ∧ c ≤ 800 then
      (j.getField "fiber_g").bind fun fj => fj.asInt.bind fun f =>
      if 0 ≤ f ∧ f ≤ 200 then some ⟨p, c, f⟩ else none
    else none
  else none

/-- Validation of `RecommendationResponse(**data)`: the three meal
strings, `totalCalories` within 0–6000, and a nested `Nutrients` object.
Extra keys are ignored. -/
def RecommendationResponse.validate (j : Json) : Option RecommendationResponse :=
  (j.getField "breakfast").bind fun bj => bj.asStr.bind fun b =>
  (j.getField "lunch").bind fun lj => lj.asStr.bind fun l =>
  (j.getField "dinner").bind fun dj => dj.asStr.bind fun dn =>
  (j.getField "totalCalories").bind fun tj => tj.asInt.bind fun t =>
  if 0 ≤ t ∧ t ≤ 6000 then
    (j.getField "nutrients").bind fun nj => (Nutrients.validate nj).map fun n =>
    ⟨b, l, dn, t, n⟩
  else none

/-- Validation of one `RecipeItem`: name, string lists, `calories`
within 0–3000, nested nutrients. -/
def RecipeItem.validate (j : Json) : Option RecipeItem :=
  (j.getField "name").bind fun nj => nj.asStr.bind fun nm =>
  (j.getField "ingredients").bind fun ij => ij.asStrList.bind fun ings =>
  (j.getField "steps").bind fun sj => sj.asStrList.bind fun stps =>
  (j.getField "calories").bind fun cj => cj.asInt.bind fun cal =>
  if 0 ≤ cal ∧ cal ≤ 3000 then
    (j.getField "nutrients").bind fun uj => (Nutrients.validate uj).map fun nu =>
    ⟨nm, ings, stps, cal, nu⟩
  else none

/-- Validation of `IngredientRecipeResponse(**data)`: an ingredient
string and a list of recipe items of any length (the model declares
`List[RecipeItem]` with no length constraint). -/
def IngredientRecipeResponse.validate (j : Json) : Option IngredientRecipeResponse :=
  (j.getField "ingredient").bind fun ij => ij.asStr.bind fun ing =>
  (j.getField "recipes").bind fun rj =>
  match rj with
  | .arr elems => (elems.mapM RecipeItem.validate).map fun rs => ⟨ing, rs⟩
  | _ => none

/-- One item of the reply envelope's `output` sequence: a `type` tag and
the `text` carried by text-bearing items. -/
structure OutputItem where
  type : String
  text : String

/-- The reply envelope of `client.responses.create`: the convenience
aggregate `output_text` (modelled `none` when the attribute is missing
or `None`) and the typed `output` sequence. -/
structure Envelope where
  output_text : Option String
  output : List OutputItem

/-- The fallback extraction loop of both handlers:
`for item in r.output: if item.type == "output_text": text += item.text`. -/
def concatOutputTexts (items : List OutputItem) : String :=
  items.foldl (fun acc item => if item.type == "output_text" then acc ++ item.text else acc) ""

/-- Payload extraction from the envelope, translating
`if hasattr(r, "output_text") and r.output_text:` — the aggregate is
used only when present and truthy (non-empty); otherwise the tagged
segments of `output` are concatenated in order. -/
def extractText (r : Envelope) : String :=
  match r.output_text with
  | some s => if s = "" then concatOutputTexts r.output else s
  | none => concatOutputTexts r.output

/-- One message of the `input` list passed to the boundary. -/
structure Message where
  role : String
  content : String

/-- The arguments of the single `client.responses.create(...)` call. -/
structure CreateArgs where
  model : String
  input : List Message
  textFormatType : String

/-- Python `str()` rendering of an `Optional[int]` inside an f-string:
`None` renders as the four letters `None`. -/
def pyStrOfOptInt : Option Int → String
  | none => "None"
  | some n => toString n

/-- Python f-string rendering of an `Optional[str]`. -/
def pyStrOfOptStr : Option String → String
  | none => "None"
  | some s => s

/-- The fixed system message of POST /recommendations. -/
def recommendationsSystemMsg : String :=
  "You are a nutrition assistant. Respect dietary preferences and avoid allergens. " ++
  "Provide practical, balanced meals. Do not provide medical diagnosis. " ++
  "Ensure nutrient values are realistic and consistent with calories " ++
  "(protein ≈ 4 kcal/g, carbs ≈ 4 kcal/g, fiber ≈ 2 kcal/g)."

/-- The templated user message of POST /recommendations, byte-for-byte
the f-string of `src/main.py` lines 85–110 (literal braces written as
escapes). -/
def recommendationsUserMsg (req : RecommendationRequest) : String :=
  "\nCreate a 1-day meal plan.\n\nUser:\n" ++
  "- goal: " ++ req.goal ++ "\n" ++
  "- dietType: " ++ req.dietType ++ "\n" ++
  "- allergy: " ++ req.allergy ++ "\n" ++
  "- age: " ++ pyStrOfOptInt req.age ++ "\n" ++
  "- gender: " ++ pyStrOfOptStr req.gender ++ "\n" ++
  "- height: " ++ pyStrOfOptInt req.height ++ "\n" ++
  "- weight: " ++ pyStrOfOptInt req.weight ++ "\n" ++
  "\nReturn JSON EXACTLY in this format (no extra text, no markdown):\n\n" ++
  "\x7b\n\"breakfast\": \"...\",\n\"lunch\": \"...\",\n\"dinner\": \"...\",\n" ++
  "\"totalCalories\": 0,\n\"nutrients\": \x7b\n    \"protein_g\": 0,\n" ++
  "    \"carbs_g\": 0,\n    \"fiber_g\": 0\n\x7d\n\x7d\n"

/-- The fixed system message of POST /recipes-by-ingredient. -/
def recipesSystemMsg : String :=
  "You are a helpful nutrition + recipe assistant. " ++
  "Respect dietary preferences and avoid allergens. " ++
  "Provide practical recipes using the given ingredient. " ++
  "Nutrients should be realistic and consistent with calories " ++
  "(protein ≈ 4 kcal/g, carbs ≈ 4 kcal/g, fiber ≈ 2 kcal/g)."

/-- The templated user message of POST /recipes-by-ingredient,
byte-for-byte the f-string of `src/main.py` lines 159–185. -/
def recipesUserMsg (req : IngredientRecipeRequest) : String :=
  "\nGenerate 3 recipe ideas that include this ingredient: " ++ req.ingredient ++ "\n" ++
  "Constraints:\n" ++
  "- goal: " ++ pyStrOfOptStr req.goal ++ "\n" ++
  "- dietType: " ++ pyStrOfOptStr req.dietType ++ "\n" ++
  "- allergy: " ++ pyStrOfOptStr req.allergy ++ "\n" ++
  "- servings: " ++ pyStrOfOptInt req.servings ++ "\n" ++
  "\nReturn JSON ONLY in this exact format (no extra text, no markdown):\n\n" ++
  "\x7b\n\"ingredient\": \"" ++ req.ingredient ++ "\",\n\"recipes\": [\n" ++
  "    \x7b\n    \"name\": \"...\",\n    \"ingredients\": [\"...\", \"...\"],\n" ++
  "    \"steps\": [\"...\", \"...\"],\n    \"calories\": 0,\n    \"nutrients\": \x7b\n" ++
  "        \"protein_g\": 0,\n        \"carbs_g\": 0,\n        \"fiber_g\": 0\n" ++
  "    \x7d\n    \x7d\n]\n\x7d\n"

/-- The boundary-call arguments composed by POST /recommendations. -/
def recommendationsCreateArgs (req : RecommendationRequest) : CreateArgs :=
  ⟨"gpt-4.1-mini",
   [⟨"system", recommendationsSystemMsg⟩, ⟨"user", recommendationsUserMsg req⟩],
   "json_object"⟩

/-- The boundary-call arguments composed by POST /recipes-by-ingredient. -/
def recipesCreateArgs (req : IngredientRecipeRequest) : CreateArgs :=
  ⟨"gpt-4.1-mini",
   [⟨"system", recipesSystemMsg⟩, ⟨"user", recipesUserMsg req⟩],
   "json_object"⟩

/-- Outcome of a handler: a 200 body or an `HTTPException(status, detail)`. -/
inductive HandlerResult (α : Type) where
  | success (body : α)
  | httpError (status : Nat) (detail : String)

/-- Detail text of the schema-violation branch. The source surfaces
`str(e)` of the underlying pydantic `ValidationError` (or `TypeError`
for a non-dict); that library-generated text is not modelled — only
that some detail string accompanies the 500. -/
def schemaViolationDetail : String := "validation error"

/-- POST /recommendations, `src/main.py` lines 69–137. Returns the HTTP
outcome paired with the list of outbound boundary calls made. -/
def recommendations (apiKey : Option String)
    (boundary : CreateArgs → Except String Envelope)
    (parseJson : String → Option Json)
    (req : RecommendationRequest) :
    HandlerResult RecommendationResponse × List CreateArgs :=
  if apiKey.getD "" = "" then
    (.httpError 500 "OPENAI_API_KEY not set", [])
  else
    match boundary (recommendationsCreateArgs req) with
    | .error e => (.httpError 500 e, [recommendationsCreateArgs req])
    | .ok r =>
      match parseJson (extractText r) with
      | none =>
        (.httpError 500 ("AI did not return valid JSON. Raw: " ++ (extractText r).take 300),
         [recommendationsCreateArgs req])
      | some data =>
        match RecommendationResponse.validate data with
        | none => (.httpError 500 schemaViolationDetail, [recommendationsCreateArgs req])
        | some resp => (.success resp, [recommendationsCreateArgs req])

/-- POST /recipes-by-ingredient, `src/main.py` lines 142–212. -/
def recipes_by_ingredient (apiKey : Option String)
    (boundary : CreateArgs → Except String Envelope)
    (parseJson : String → Option Json)
    (req : IngredientRecipeRequest) :
    HandlerResult IngredientRecipeResponse × List CreateArgs :=
  if apiKey.getD "" = "" then
    (.httpError 500 "OPENAI_API_KEY not set", [])
  else
    match boundary (recipesCreateArgs req) with
    | .error e => (.httpError 500 e, [recipesCreateArgs req])
    | .ok r =>
      match parseJson (extractText r) with
      | none =>
        (.httpError 500 ("AI did not return valid JSON. Raw: " ++ (extractText r).take 300),
         [recipesCreateArgs req])
      | some data =>
        match IngredientRecipeResponse.validate data with
        | none => (.httpError 500 schemaViolationDetail, [recipesCreateArgs req])
        | some resp => (.success resp, [recipesCreateArgs req])

/-! Helper lemmas: characterizations of the validators and of the
handler control flow, used by the claim theorems below. -/

lemma Json.asInt_eq_some {j : Json} {n : Int} : j.asInt = some n ↔ j = .num n := by
  cases j <;> simp [Json.asInt]

lemma Json.asStr_eq_some {j : Json} {s : String} : j.asStr = some s ↔ j = .str s := by
  cases j <;> simp [Json.asStr]

lemma nutrients_validate_characterization {j : Json} {n : Nutrients} :
    Nutrients.validate j = some n ↔
      j.getField "protein_g" = some (.num n.protein_g) ∧
      0 ≤ n.protein_g ∧ n.protein_g ≤ 500 ∧
      j.getField "carbs_g" = some (.num n.carbs_g) ∧
      0 ≤ n.carbs_g ∧ n.carbs_g ≤ 800 ∧
      j.getField "fiber_g" = some (.num n.fiber_g) ∧
      0 ≤ n.fiber_g ∧ n.fiber_g ≤ 200 := by
  obtain ⟨np, nc, nf⟩ := n
  constructor
  · intro h0
    unfold Nutrients.validate at h0
    rcases Option.bind_eq_some.mp h0 with ⟨pj, hpj, h1⟩
    rcases Option.bind_eq_some.mp h1 with ⟨p, hp, h2⟩
    rw [Json.asInt_eq_some] at hp
    rw [hp] at hpj
    by_cases hc1 : 0 ≤ p ∧ p ≤ 500
    · rw [if_pos hc1] at h2
      rcases Option.bind_eq_some.mp h2 with ⟨cj, hcj, h3⟩
      rcases Option.bind_eq_some.mp h3 with ⟨c, hc, h4⟩
      rw [Json.asInt_eq_some] at hc
      rw [hc] at hcj
      by_cases hc2 : 0 ≤ c ∧ c ≤ 800
      · rw [if_pos hc2] at h4
        rcases Option.bind_eq_some.mp h4 with ⟨fj, hfj, h5⟩
        rcases Option.bind_eq_some.mp h5 with ⟨f, hf, h6⟩
        rw [Json.asInt_eq_some] at hf
        rw [hf] at hfj
        by_cases hc3 : 0 ≤ f ∧ f ≤ 200
        · rw [if_pos hc3] at h6
          simp only [Option.some.injEq, Nutrients.mk.injEq] at h6
          obtain ⟨e1, e2, e3⟩ := h6
          subst e1; subst e2; subst e3
          exact ⟨hpj, hc1.1, hc1.2, hcj, hc2.1, hc2.2, hfj, hc3.1, hc3.2⟩
        · rw [if_neg hc3] at h6; exact absurd h6 (by simp)
      · rw [if_neg hc2] at h4; exact absurd h4 (by simp)
    · rw [if_neg hc1] at h2; exact absurd h2 (by simp)
  · rintro ⟨h1, hp0, hp1, h2, hc0, hc1, h3, hf0, hf1⟩
    simp [Nutrients.validate, h1, h2, h3, Json.asInt, hp0, hp1, hc0, hc1, hf0, hf1]

lemma recommendationResponse_validate_characterization {j : Json} {resp : RecommendationResponse} :
    RecommendationResponse.validate j = some resp ↔
      j.getField "breakfast" = some (.str resp.breakfast) ∧
      j.getField "lunch" = some (.str resp.lunch) ∧
      j.getField "dinner" = some (.str resp.dinner) ∧
      j.getField "totalCalories" = some (.num resp.totalCalories) ∧
      0 ≤ resp.totalCalories ∧ resp.totalCalories ≤ 6000 ∧
      ∃ nj, j.getField "nutrients" = some nj ∧
        Nutrients.validate nj = some resp.nutrients := by
  obtain ⟨rb, rl, rd, rt, rn⟩ := resp
  constructor
  · intro h0
    unfold RecommendationResponse.validate at h0
    rcases Option.bind_eq_some.mp h0 with ⟨bj, hbj, h1⟩
    rcases Option.bind_eq_some.mp h1 with ⟨b, hb, h2⟩
    rw [Json.asStr_eq_some] at hb
    rw [hb] at hbj
    rcases Option.bind_eq_some.mp h2 with ⟨lj, hlj, h3⟩
    rcases Option.bind_eq_some.mp h3 with ⟨l, hl, h4⟩
    rw [Json.asStr_eq_some] at hl
    rw [hl] at hlj
    rcases Option.bind_eq_some.mp h4 with ⟨dj, hdj, h5⟩
    rcases Option.bind_eq_some.mp h5 with ⟨dn, hdn, h6⟩
    rw [Json.asStr_eq_some] at hdn
    rw [hdn] at hdj
    rcases Option.bind_eq_some.mp h6 with ⟨tj, htj, h7⟩
    rcases Option.bind_eq_some.mp h7 with ⟨t, ht, h8⟩
    rw [Json.asInt_eq_some] at ht
    rw [ht] at htj
    by_cases hc : 0 ≤ t ∧ t ≤ 6000
    · rw [if_pos hc] at h8
      rcases Option.bind_eq_some.mp h8 with ⟨nj, hnj, h9⟩
      rcases Option.map_eq_some'.mp h9 with ⟨n, hn, h10⟩
      simp only [RecommendationResponse.mk.injEq] at h10
      obtain ⟨e1, e2, e3, e4, e5⟩ := h10
      subst e1; subst e2; subst e3; subst e4; subst e5
      exact ⟨hbj, hlj, hdj, htj, hc.1, hc.2, nj, hnj, hn⟩
    · rw [if_neg hc] at h8; exact absurd h8 (by simp)
  · rintro ⟨h1, h2, h3, h4, ht0, ht1, nj, hnj, hvn⟩
    simp [RecommendationResponse.validate, h1, h2, h3, h4, hnj, hvn,
      Json.asStr, Json.asInt, ht0, ht1]

lemma recipeItem_validate_characterization {j : Json} {it : RecipeItem} :
    RecipeItem.validate j = some it ↔
      j.getField "name" = some (.str it.name) ∧
      (∃ ij, j.getField "ingredients" = some ij ∧ ij.asStrList = some it.ingredients) ∧
      (∃ sj, j.getField "steps" = some sj ∧ sj.asStrList = some it.steps) ∧
      j.getField "calories" = some (.num it.calories) ∧
      0 ≤ it.calories ∧ it.calories ≤ 3000 ∧
      ∃ uj, j.getField "nutrients" = some uj ∧
        Nutrients.validate uj = some it.nutrients := by
  obtain ⟨nm, ings, stps, cal, nu⟩ := it
  constructor
  · intro h0
    unfold RecipeItem.validate at h0
    rcases Option.bind_eq_some.mp h0 with ⟨nj, hnj, h1⟩
    rcases Option.bind_eq_some.mp h1 with ⟨nm', hnm, h2⟩
    rw [Json.asStr_eq_some] at hnm
    rw [hnm] at hnj
    rcases Option.bind_eq_some.mp h2 with ⟨ij, hij, h3⟩
    rcases Option.bind_eq_some.mp h3 with ⟨ings', hings, h4⟩
    rcases Option.bind_eq_some.mp h4 with ⟨sj, hsj, h5⟩
    rcases Option.bind_eq_some.mp h5 with ⟨stps', hstps, h6⟩
    rcases Option.bind_eq_some.mp h6 with ⟨cj, hcj, h7⟩
    rcases Option.bind_eq_some.mp h7 with ⟨cal', hcal, h8⟩
    rw [Json.asInt_eq_some] at hcal
    rw [hcal] at hcj
    by_cases hc : 0 ≤ cal' ∧ cal' ≤ 3000
    · rw [if_pos hc] at h8
      rcases Option.bind_eq_some.mp h8 with ⟨uj, huj, h9⟩
      rcases Option.map_eq_some'.mp h9 with ⟨n, hn, h10⟩
      simp only [RecipeItem.mk.injEq] at h10
      obtain ⟨e1, e2, e3, e4, e5⟩ := h10
      subst e1; subst e2; subst e3; subst e4; subst e5
      exact ⟨hnj, ⟨ij, hij, hings⟩, ⟨sj, hsj, hstps⟩, hcj, hc.1, hc.2, uj, huj, hn⟩
    · rw [if_neg hc] at h8; exact absurd h8 (by simp)
  · rintro ⟨h1, ⟨ij, hij, hings⟩, ⟨sj, hsj, hstps⟩, h4, hc0, hc1, uj, huj, hvn⟩
    simp [RecipeItem.validate, h1, hij, hings, hsj, hstps, h4, huj, hvn,
      Json.asStr, Json.asInt, hc0, hc1]

lemma ingredientRecipeResponse_validate_characterization {j : Json} {resp : IngredientRecipeResponse} :
    IngredientRecipeResponse.validate j = some resp ↔
      j.getField "ingredient" = some (.str resp.ingredient) ∧
      ∃ elems, j.getField "recipes" = some (.arr elems) ∧
        elems.mapM RecipeItem.validate = some resp.recipes := by
  obtain ⟨ing, rs⟩ := resp
  constructor
  · intro h0
    unfold IngredientRecipeResponse.validate at h0
    rcases Option.bind_eq_some.mp h0 with ⟨ij, hij, h1⟩
    rcases Option.bind_eq_some.mp h1 with ⟨ing', hing, h2⟩
    rw [Json.asStr_eq_some] at hing
    rw [hing] at hij
    rcases Option.bind_eq_some.mp h2 with ⟨rj, hrj, h3⟩
    cases rj with
    | arr elems =>
      rcases Option.map_eq_some'.mp h3 with ⟨rs', hrs, h4⟩
      simp only [IngredientRecipeResponse.mk.injEq] at h4
      obtain ⟨e1, e2⟩ := h4
      subst e1; subst e2
      exact ⟨hij, elems, hrj, hrs⟩
    | null => exact absurd h3 (by simp)
    | bool b => exact absurd h3 (by simp)
    | num n => exact absurd h3 (by simp)
    | str s => exact absurd h3 (by simp)
    | obj fields => exact absurd h3 (by simp)
  · rintro ⟨h1, elems, h2, h3⟩
    simp only [IngredientRecipeResponse.mk.injEq] at h3 ⊢
    unfold IngredientRecipeResponse.validate
    simp only [h1, h2, Option.some_bind, Json.asStr]
    rw [h3, Option.map_some']

lemma recommendations_success {k : String} (hk : ¬ k = "")
    {B : CreateArgs → Except String Envelope} {P : String → Option Json}
    {req : RecommendationRequest} {r : Envelope} {d : Json} {resp : RecommendationResponse}
    (hB : B (recommendationsCreateArgs req) = .ok r)
    (hP : P (extractText r) = some d)
    (hV : RecommendationResponse.validate d = some resp) :
    recommendations (some k) B P req = (.success resp, [recommendationsCreateArgs req]) := by
  unfold recommendations
  rw [Option.getD_some, if_neg hk]
  simp only [hB, hP, hV]

lemma recommendations_invalid {k : String} (hk : ¬ k = "")
    {B : CreateArgs → Except String Envelope} {P : String → Option Json}
    {req : RecommendationRequest} {r : Envelope} {d : Json}
    (hB : B (recommendationsCreateArgs req) = .ok r)
    (hP : P (extractText r) = some d)
    (hV : RecommendationResponse.validate d = none) :
    recommendations (some k) B P req =
      (.httpError 500 schemaViolationDetail, [recommendationsCreateArgs req]) := by
  unfold recommendations
  rw [Option.getD_some, if_neg hk]
  simp only [hB, hP, hV]

lemma recommendations_parse_failure {k : String} (hk : ¬ k = "")
    {B : CreateArgs → Except String Envelope} {P : String → Option Json}
    {req : RecommendationRequest} {r : Envelope}
    (hB : B (recommendationsCreateArgs req) = .ok r)
    (hP : P (extractText r) = none) :
    recommendations (some k) B P req =
      (.httpError 500 ("AI did not return valid JSON. Raw: " ++ (extractText r).take 300),
       [recommendationsCreateArgs req]) := by
  unfold recommendations
  rw [Option.getD_some, if_neg hk]
  simp only [hB, hP]

lemma recommendations_trace {k : String} (hk : ¬ k = "")
    (B : CreateArgs → Except String Envelope) (P : String → Option Json)
    (req : RecommendationRequest) :
    (recommendations (some k) B P req).2 = [recommendationsCreateArgs req] := by
  unfold recommendations
  rw [Option.getD_some, if_neg hk]
  split
  · rfl
  · split
    · rfl
    · split
      · rfl
      · rfl

lemma recipes_by_ingredient_success {k : String} (hk : ¬ k = "")
    {B : CreateArgs → Except String Envelope} {P : String → Option Json}
    {req : IngredientRecipeRequest} {r : Envelope} {d : Json} {resp : IngredientRecipeResponse}
    (hB : B (recipesCreateArgs req) = .ok r)
    (hP : P (extractText r) = some d)
    (hV : IngredientRecipeResponse.validate d = some resp) :
    recipes_by_ingredient (some k) B P req = (.success resp, [recipesCreateArgs req]) := by
  unfold recipes_by_ingredient
  rw [Option.getD_some, if_neg hk]
  simp only [hB, hP, hV]

lemma recipes_by_ingredient_invalid {k : String} (hk : ¬ k = "")
    {B : CreateArgs → Except String Envelope} {P : String → Option Json}
    {req : IngredientRecipeRequest} {r : Envelope} {d : Json}
    (hB : B (recipesCreateArgs req) = .ok r)
    (hP : P (extractText r) = some d)
    (hV : IngredientRecipeResponse.validate d = none) :
    recipes_by_ingredient (some k) B P req =
      (.httpError 500 schemaViolationDetail, [recipesCreateArgs req]) := by
  unfold recipes_by_ingredient
  rw [Option.getD_some, if_neg hk]
  simp only [hB, hP, hV]

lemma recipes_by_ingredient_parse_failure {k : String} (hk : ¬ k = "")
    {B : CreateArgs → Except String Envelope} {P : String → Option Json}
    {req : IngredientRecipeRequest} {r : Envelope}
    (hB : B (recipesCreateArgs req) = .ok r)
    (hP : P (extractText r) = none) :
    recipes_by_ingredient (some k) B P req =
      (.httpError 500 ("AI did not return valid JSON. Raw: " ++ (extractText r).take 300),
       [recipesCreateArgs req]) := by
  unfold recipes_by_ingredient
  rw [Option.getD_some, if_neg hk]
  simp only [hB, hP]

lemma recipes_by_ingredient_trace {k : String} (hk : ¬ k = "")
    (B : CreateArgs → Except String Envelope) (P : String → Option Json)
    (req : IngredientRecipeRequest) :
    (recipes_by_ingredient (some k) B P req).2 = [recipesCreateArgs req] := by
  unfold recipes_by_ingredient
  rw [Option.getD_some, if_neg hk]
  split
  · rfl
  · split
    · rfl
    · split
      · rfl
      · rfl

lemma lookupField_append_single (fields : List (String × Json)) (key k : String) (v : Json)
    (h : ¬ k = key) : lookupField (fields ++ [(k, v)]) key = lookupField fields key := by
  induction fields with
  | nil => simp [lookupField, h]
  | cons p rest ih =>
    obtain ⟨k1, v1⟩ := p
    simp only [List.cons_append, lookupField]
    split
    · rfl
    · exact ih

lemma recommendationResponse_validate_congr {d1 d2 : Json}
    (h1 : d1.getField "breakfast" = d2.getField "breakfast")
    (h2 : d1.getField "lunch" = d2.getField "lunch")
    (h3 : d1.getField "dinner" = d2.getField "dinner")
    (h4 : d1.getField "totalCalories" = d2.getField "totalCalories")
    (h5 : d1.getField "nutrients" = d2.getField "nutrients") :
    RecommendationResponse.validate d1 = RecommendationResponse.validate d2 := by
  unfold RecommendationResponse.validate
  simp only [h1, h2, h3, h4, h5]

lemma ingredientRecipeResponse_validate_congr {d1 d2 : Json}
    (h1 : d1.getField "ingredient" = d2.getField "ingredient")
    (h2 : d1.getField "recipes" = d2.getField "recipes") :
    IngredientRecipeResponse.validate d1 = IngredientRecipeResponse.validate d2 := by
  unfold IngredientRecipeResponse.validate
  simp only [h1, h2]

lemma string_foldl_append (xs : List String) (a : String) :
    xs.foldl (· ++ ·) a = a ++ xs.foldl (· ++ ·) "" := by
  induction xs generalizing a with
  | nil => exact (String.append_empty a).symm
  | cons x xs ih =>
    simp only [List.foldl_cons]
    rw [ih (a ++ x), ih ("" ++ x), String.empty_append, String.append_assoc]

lemma string_join_cons (x : String) (xs : List String) :
    String.join (x :: xs) = x ++ String.join xs := by
  show (x :: xs).foldl (· ++ ·) "" = x ++ String.join xs
  simp only [List.foldl_cons, String.empty_append]
  exact string_foldl_append xs x

lemma concatOutputTexts_go (items : List OutputItem) (acc : String) :
    items.foldl (fun acc item => if item.type == "output_text" then acc ++ item.text else acc) acc
      = acc ++
        String.join ((items.filter fun i => i.type == "output_text").map fun i => i.text) := by
  induction items generalizing acc with
  | nil => exact (String.append_empty acc).symm
  | cons it rest ih =>
    cases hty : (it.type == "output_text") with
    | true =>
      simp only [List.foldl_cons, List.filter_cons, hty, if_true, List.map_cons]
      rw [ih (acc ++ it.text), string_join_cons, String.append_assoc]
    | false =>
      simp only [List.foldl_cons, List.filter_cons, hty]
      simpa using ih acc

lemma concatOutputTexts_eq_join (items : List OutputItem) :
    concatOutputTexts items
      = String.join ((items.filter fun i => i.type == "output_text").map fun i => i.text) := by
  unfold concatOutputTexts
  rw [concatOutputTexts_go, String.empty_append]

lemma string_take_length_le (s : String) (n : Nat) : (s.take n).length ≤ n := by
  rw [String.take_eq]
  show (List.take n s.data).length ≤ n
  rw [List.length_take]
  exact Nat.min_le_left _ _

lemma string_take_append_drop (s : String) (n : Nat) : s.take n ++ s.drop n = s := by
  rw [String.take_eq, String.drop_eq]
  cases s with
  | mk data =>
    show String.mk (List.take n data ++ List.drop n data) = ⟨data⟩
    rw [List.take_append_drop]

/-! Concrete fixtures used by the witness theorems below. -/

/-- Fixture: the spec's scenario request for POST /recommendations. -/
def wRecReq : RecommendationRequest := ⟨"lose weight", "vegan", "peanuts", none, none, none, none⟩

/-- Fixture: a request for POST /recipes-by-ingredient. -/
def wIngReq : IngredientRecipeRequest := ⟨"chickpeas", none, none, none, some 1⟩

/-- Fixture: an envelope whose aggregate text field is non-empty. -/
def wEnvelope : Envelope := ⟨some "payload", []⟩

/-- Fixture: the spec's scenario reply for /recommendations, as parsed JSON. -/
def wGoodRecJson : Json :=
  .obj [("breakfast", .str "oatmeal"), ("lunch", .str "salad"), ("dinner", .str "soup"),
        ("totalCalories", .num 1500),
        ("nutrients", .obj [("protein_g", .num 50), ("carbs_g", .num 180), ("fiber_g", .num 30)])]

/-- Fixture: the typed value of `wGoodRecJson`. -/
def wGoodRecResp : RecommendationResponse := ⟨"oatmeal", "salad", "soup", 1500, ⟨50, 180, 30⟩⟩

/-- Fixture: a reply whose `totalCalories` (7000) violates the 0–6000 bound. -/
def wBadCaloriesJson : Json :=
  .obj [("breakfast", .str "oatmeal"), ("lunch", .str "salad"), ("dinner", .str "soup"),
        ("totalCalories", .num 7000),
        ("nutrients", .obj [("protein_g", .num 50), ("carbs_g", .num 180), ("fiber_g", .num 30)])]

/-- Fixture: one shape-valid recipe item, as parsed JSON. -/
def wRecipeItemJson : Json :=
  .obj [("name", .str "hummus"), ("ingredients", .arr [.str "chickpeas"]),
        ("steps", .arr [.str "blend"]), ("calories", .num 200),
        ("nutrients", .obj [("protein_g", .num 10), ("carbs_g", .num 20), ("fiber_g", .num 5)])]

/-- Fixture: the typed value of `wRecipeItemJson`. -/
def wRecipeItem : RecipeItem := ⟨"hummus", ["chickpeas"], ["blend"], 200, ⟨10, 20, 5⟩⟩

/-- Fixture: a reply carrying only two recipes (the prompt asks for three). -/
def wTwoRecipesJson : Json :=
  .obj [("ingredient", .str "chickpeas"), ("recipes", .arr [wRecipeItemJson, wRecipeItemJson])]

/-- Fixture: the typed value of `wTwoRecipesJson`. -/
def wTwoRecipesResp : IngredientRecipeResponse := ⟨"chickpeas", [wRecipeItem, wRecipeItem]⟩

/-- Fixture: the field list of `wGoodRecJson`, for the extra-key experiment. -/
def wGoodRecFields : List (String × Json) :=
  [("breakfast", .str "oatmeal"), ("lunch", .str "salad"), ("dinner", .str "soup"),
   ("totalCalories", .num 1500),
   ("nutrients", .obj [("protein_g", .num 50), ("carbs_g", .num 180), ("fiber_g", .num 30)])]

/-- Fixture: the field list of `wTwoRecipesJson`, for the extra-key experiment
on the ingredient endpoint. -/
def wTwoRecipesFields : List (String × Json) :=
  [("ingredient", .str "chickpeas"), ("recipes", .arr [wRecipeItemJson, wRecipeItemJson])]

/-! Claim theorems. -/

/-- C1: for every valid request, if the boundary returns a payload that parses
and validates against the declared response shape, the handler returns the
validated value unchanged (HTTP 200), and every response field — in particular
`totalCalories`, which is not re-derived from the nutrients — equals the
corresponding value in the parsed JSON. -/
theorem success_response_equals_parsed_values
    (k : String) (B : CreateArgs → Except String Envelope) (P : String → Option Json)
    (req : RecommendationRequest) (req2 : IngredientRecipeRequest)
    (r r2 : Envelope) (d d2 : Json)
    (resp : RecommendationResponse) (resp2 : IngredientRecipeResponse)
    (hk : k ≠ "") :
    (B (recommendationsCreateArgs req) = .ok r → P (extractText r) = some d →
      RecommendationResponse.validate d = some resp →
      (recommendations (some k) B P req).1 = .success resp ∧
      d.getField "breakfast" = some (.str resp.breakfast) ∧
      d.getField "lunch" = some (.str resp.lunch) ∧
      d.getField "dinner" = some (.str resp.dinner) ∧
      d.getField "totalCalories" = some (.num resp.totalCalories) ∧
      (∃ nj, d.getField "nutrients" = some nj ∧
        nj.getField "protein_g" = some (.num resp.nutrients.protein_g) ∧
        nj.getField "carbs_g" = some (.num resp.nutrients.carbs_g) ∧
        nj.getField "fiber_g" = some (.num resp.nutrients.fiber_g))) ∧
    (B (recipesCreateArgs req2) = .ok r2 → P (extractText r2) = some d2 →
      IngredientRecipeResponse.validate d2 = some resp2 →
      (recipes_by_ingredient (some k) B P req2).1 = .success resp2) := by
  constructor
  · intro hB hP hV
    refine ⟨by rw [recommendations_success hk hB hP hV], ?_⟩
    obtain ⟨h1, h2, h3, h4, _, _, nj, hnj, hvn⟩ := recommendationResponse_validate_characterization.mp hV
    obtain ⟨hnp, _, _, hncb, _, _, hnf, _, _⟩ := nutrients_validate_characterization.mp hvn
    exact ⟨h1, h2, h3, h4, nj, hnj, hnp, hncb, hnf⟩
  · intro hB hP hV
    rw [recipes_by_ingredient_success hk hB hP hV]

/-- Witness for C1 at the spec's scenario values. -/
theorem success_response_equals_parsed_values_witness :
    (recommendations (some "sk-test") (fun _ => Except.ok wEnvelope)
        (fun _ => some wGoodRecJson) wRecReq).1 = .success wGoodRecResp :=
  ((success_response_equals_parsed_values "sk-test" (fun _ => Except.ok wEnvelope)
      (fun _ => some wGoodRecJson) wRecReq wIngReq wEnvelope wEnvelope wGoodRecJson Json.null
      wGoodRecResp ⟨"x", []⟩ (by decide)).1 rfl rfl rfl).1

/-- C2: for every reply whose extracted payload does not parse as JSON, each
POST handler fails with HTTP 500 whose detail is the fixed message followed by
the verbatim first-300-character prefix of the raw payload (`text[:300]`),
never more: the excerpt has length at most 300 and is a prefix of the payload
(appending the remainder restores it). -/
theorem malformed_output_bounded_detail
    (k : String) (B : CreateArgs → Except String Envelope) (P : String → Option Json)
    (req : RecommendationRequest) (req2 : IngredientRecipeRequest)
    (r r2 : Envelope) (hk : k ≠ "") :
    (B (recommendationsCreateArgs req) = .ok r → P (extractText r) = none →
      (recommendations (some k) B P req).1 =
        .httpError 500 ("AI did not return valid JSON. Raw: " ++ (extractText r).take 300)) ∧
    (B (recipesCreateArgs req2) = .ok r2 → P (extractText r2) = none →
      (recipes_by_ingredient (some k) B P req2).1 =
        .httpError 500 ("AI did not return valid JSON. Raw: " ++ (extractText r2).take 300)) ∧
    ((extractText r).take 300).length ≤ 300 ∧
    (extractText r).take 300 ++ (extractText r).drop 300 = extractText r :=
  ⟨fun hB hP => by rw [recommendations_parse_failure hk hB hP],
   fun hB hP => by rw [recipes_by_ingredient_parse_failure hk hB hP],
   string_take_length_le _ _, string_take_append_drop _ _⟩

/-- Witness for C2: a stub payload that fails to parse. -/
theorem malformed_output_bounded_detail_witness :
    (recommendations (some "sk-test") (fun _ => Except.ok wEnvelope) (fun _ => none) wRecReq).1 =
      .httpError 500 ("AI did not return valid JSON. Raw: " ++ (extractText wEnvelope).take 300) :=
  (malformed_output_bounded_detail "sk-test" (fun _ => Except.ok wEnvelope) (fun _ => none)
    wRecReq wIngReq wEnvelope wEnvelope (by decide)).1 rfl rfl

/-- C3: a parsed reply that omits a required key or carries a numeric field
outside its declared inclusive bound (totalCalories 0–6000, protein 0–500,
carbs 0–800, fiber 0–200, calories 0–3000) fails validation, and both handlers
then return HTTP 500, never 200. -/
theorem schema_violation_returns_500
    (k : String) (B : CreateArgs → Except String Envelope) (P : String → Option Json)
    (req : RecommendationRequest) (req2 : IngredientRecipeRequest)
    (r r2 : Envelope) (d d2 di nj : Json) (t p c f cal : Int) (hk : k ≠ "") :
    (B (recommendationsCreateArgs req) = .ok r → P (extractText r) = some d →
      RecommendationResponse.validate d = none →
      (recommendations (some k) B P req).1 = .httpError 500 schemaViolationDetail) ∧
    (B (recipesCreateArgs req2) = .ok r2 → P (extractText r2) = some d2 →
      IngredientRecipeResponse.validate d2 = none →
      (recipes_by_ingredient (some k) B P req2).1 = .httpError 500 schemaViolationDetail) ∧
    (d.getField "breakfast" = none → RecommendationResponse.validate d = none) ∧
    (d.getField "nutrients" = none → RecommendationResponse.validate d = none) ∧
    (d2.getField "ingredient" = none → IngredientRecipeResponse.validate d2 = none) ∧
    (d.getField "totalCalories" = some (.num t) → ¬(0 ≤ t ∧ t ≤ 6000) →
      RecommendationResponse.validate d = none) ∧
    (nj.getField "protein_g" = some (.num p) → ¬(0 ≤ p ∧ p ≤ 500) →
      Nutrients.validate nj = none) ∧
    (nj.getField "carbs_g" = some (.num c) → ¬(0 ≤ c ∧ c ≤ 800) →
      Nutrients.validate nj = none) ∧
    (nj.getField "fiber_g" = some (.num f) → ¬(0 ≤ f ∧ f ≤ 200) →
      Nutrients.validate nj = none) ∧
    (di.getField "calories" = some (.num cal) → ¬(0 ≤ cal ∧ cal ≤ 3000) →
      RecipeItem.validate di = none) := by
  refine ⟨fun hB hP hV => by rw [recommendations_invalid hk hB hP hV],
          fun hB hP hV => by rw [recipes_by_ingredient_invalid hk hB hP hV],
          ?_, ?_, ?_, ?_, ?_, ?_, ?_, ?_⟩
  · intro h
    cases hv : RecommendationResponse.validate d with
    | none => rfl
    | some resp =>
      have h1 := (recommendationResponse_validate_characterization.mp hv).1
      rw [h] at h1
      exact Option.noConfusion h1
  · intro h
    cases hv : RecommendationResponse.validate d with
    | none => rfl
    | some resp =>
      obtain ⟨_, _, _, _, _, _, nj', hnj, _⟩ := recommendationResponse_validate_characterization.mp hv
      rw [h] at hnj
      exact Option.noConfusion hnj
  · intro h
    cases hv : IngredientRecipeResponse.validate d2 with
    | none => rfl
    | some resp =>
      have h1 := (ingredientRecipeResponse_validate_characterization.mp hv).1
      rw [h] at h1
      exact Option.noConfusion h1
  · intro h hb
    cases hv : RecommendationResponse.validate d with
    | none => rfl
    | some resp =>
      obtain ⟨_, _, _, h4, hb0, hb1, _⟩ := recommendationResponse_validate_characterization.mp hv
      rw [h] at h4
      simp only [Option.some.injEq, Json.num.injEq] at h4
      subst h4
      exact absurd ⟨hb0, hb1⟩ hb
  · intro h hb
    cases hv : Nutrients.validate nj with
    | none => rfl
    | some n =>
      obtain ⟨h1, hb0, hb1, _⟩ := nutrients_validate_characterization.mp hv
      rw [h] at h1
      simp only [Option.some.injEq, Json.num.injEq] at h1
      subst h1
      exact absurd ⟨hb0, hb1⟩ hb
  · intro h hb
    cases hv : Nutrients.validate nj with
    | none => rfl
    | some n =>
      obtain ⟨_, _, _, h2, hb0, hb1, _⟩ := nutrients_validate_characterization.mp hv
      rw [h] at h2
      simp only [Option.some.injEq, Json.num.injEq] at h2
      subst h2
      exact absurd ⟨hb0, hb1⟩ hb
  · intro h hb
    cases hv : Nutrients.validate nj with
    | none => rfl
    | some n =>
      obtain ⟨_, _, _, _, _, _, h3, hb0, hb1⟩ := nutrients_validate_characterization.mp hv
      rw [h] at h3
      simp only [Option.some.injEq, Json.num.injEq] at h3
      subst h3
      exact absurd ⟨hb0, hb1⟩ hb
  · intro h hb
    cases hv : RecipeItem.validate di with
    | none => rfl
    | some it =>
      obtain ⟨_, _, _, h4, hb0, hb1, _⟩ := recipeItem_validate_characterization.mp hv
      rw [h] at h4
      simp only [Option.some.injEq, Json.num.injEq] at h4
      subst h4
      exact absurd ⟨hb0, hb1⟩ hb

/-- Witness for C3: `totalCalories` = 7000 is rejected and surfaces as a 500. -/
theorem schema_violation_returns_500_witness :
    (recommendations (some "sk-test") (fun _ => Except.ok wEnvelope)
        (fun _ => some wBadCaloriesJson) wRecReq).1 = .httpError 500 schemaViolationDetail :=
  (schema_violation_returns_500 "sk-test" (fun _ => Except.ok wEnvelope)
    (fun _ => some wBadCaloriesJson) wRecReq wIngReq wEnvelope wEnvelope wBadCaloriesJson
    Json.null Json.null Json.null 7000 0 0 0 0 (by decide)).1 rfl rfl rfl

/-- C4: prompt composition is a pure, deterministic function of the bound
request: in every execution that passes the credential check the single
boundary call carries exactly `recommendationsCreateArgs req` (resp.
`recipesCreateArgs req`), independent of the credential value, the boundary
behaviour and the parser — so two executions on the same bound request compose
byte-identical prompt text. -/
theorem prompt_composition_deterministic
    (k1 k2 : String) (B1 B2 : CreateArgs → Except String Envelope)
    (P1 P2 : String → Option Json)
    (req : RecommendationRequest) (req2 : IngredientRecipeRequest)
    (hk1 : k1 ≠ "") (hk2 : k2 ≠ "") :
    (recommendations (some k1) B1 P1 req).2 = [recommendationsCreateArgs req] ∧
    (recommendations (some k2) B2 P2 req).2 = (recommendations (some k1) B1 P1 req).2 ∧
    (recipes_by_ingredient (some k1) B1 P1 req2).2 = [recipesCreateArgs req2] ∧
    (recipes_by_ingredient (some k2) B2 P2 req2).2 =
      (recipes_by_ingredient (some k1) B1 P1 req2).2 := by
  refine ⟨recommendations_trace hk1 B1 P1 req, ?_,
          recipes_by_ingredient_trace hk1 B1 P1 req2, ?_⟩
  · rw [recommendations_trace hk1 B1 P1 req, recommendations_trace hk2 B2 P2 req]
  · rw [recipes_by_ingredient_trace hk1 B1 P1 req2, recipes_by_ingredient_trace hk2 B2 P2 req2]

/-- Witness for C4: two different environments compose the same prompt. -/
theorem prompt_composition_deterministic_witness :
    (recommendations (some "key-b") (fun _ => Except.error "boom") (fun _ => none) wRecReq).2 =
      (recommendations (some "key-a") (fun _ => Except.ok wEnvelope)
        (fun _ => some wGoodRecJson) wRecReq).2 :=
  (prompt_composition_deterministic "key-a" "key-b" (fun _ => Except.ok wEnvelope)
    (fun _ => Except.error "boom") (fun _ => some wGoodRecJson) (fun _ => none)
    wRecReq wIngReq (by decide) (by decide)).2.1

/-- C5: with no credential configured, either POST endpoint returns HTTP 500
with a detail naming the missing credential, and makes zero outbound calls. -/
theorem missing_credential_short_circuits
    (B : CreateArgs → Except String Envelope) (P : String → Option Json)
    (req : RecommendationRequest) (req2 : IngredientRecipeRequest) :
    recommendations none B P req = (.httpError 500 "OPENAI_API_KEY not set", []) ∧
    recipes_by_ingredient none B P req2 = (.httpError 500 "OPENAI_API_KEY not set", []) :=
  ⟨rfl, rfl⟩

/-- C6 counterexample: an envelope that exposes the aggregate text field with
the (falsy) value "" is not used as the payload — the code falls back to
concatenating the tagged segments, refuting the claim as stated. -/
theorem aggregate_text_counterexample :
    ¬ ∀ (r : Envelope) (s : String), r.output_text = some s → extractText r = s := by
  intro h
  exact absurd
    (h ⟨some "", [⟨"output_text", "hello"⟩]⟩ "" rfl : ("hello" : String) = "")
    (by decide)

/-- C6 (amended): if the envelope exposes a non-empty aggregate text field,
that field is the payload; otherwise (field absent or empty) the payload is
the in-order concatenation of exactly the segments tagged `output_text`,
ignoring segments of any other type. -/
theorem payload_extraction_amended (r : Envelope) (s : String) :
    (r.output_text = some s → s ≠ "" → extractText r = s) ∧
    (r.output_text = none ∨ r.output_text = some "" →
      extractText r =
        String.join (((r.output).filter fun i => i.type == "output_text").map fun i => i.text)) := by
  constructor
  · intro hs hne
    simp only [extractText, hs]
    rw [if_neg hne]
  · intro hcase
    rcases hcase with hn | he
    · simp only [extractText, hn]
      exact concatOutputTexts_eq_join r.output
    · simp only [extractText, he, if_pos]
      exact concatOutputTexts_eq_join r.output

/-- Witness for C6 (amended): with no aggregate, only `output_text`-tagged
segments are concatenated, in order. -/
theorem payload_extraction_amended_witness :
    extractText ⟨none, [⟨"output_text", "al"⟩, ⟨"reasoning", "zz"⟩, ⟨"output_text", "pha"⟩]⟩ =
      String.join
        ((([⟨"output_text", "al"⟩, ⟨"reasoning", "zz"⟩, ⟨"output_text", "pha"⟩] :
            List OutputItem).filter fun i => i.type == "output_text").map fun i => i.text) :=
  (payload_extraction_amended
    ⟨none, [⟨"output_text", "al"⟩, ⟨"reasoning", "zz"⟩, ⟨"output_text", "pha"⟩]⟩ "").2
    (Or.inl rfl)

/-- C7: a parsed reply whose `recipes` array has a length other than 3 but
whose elements each match the RecipeItem shape still validates and yields
HTTP 200 — the count of 3 lives only in the prompt text. -/
theorem recipe_count_not_enforced
    (k : String) (B : CreateArgs → Except String Envelope) (P : String → Option Json)
    (req2 : IngredientRecipeRequest) (r2 : Envelope) (d2 : Json)
    (resp2 : IngredientRecipeResponse)
    (hk : k ≠ "") (hB : B (recipesCreateArgs req2) = .ok r2)
    (hP : P (extractText r2) = some d2)
    (hV : IngredientRecipeResponse.validate d2 = some resp2)
    (hlen : resp2.recipes.length ≠ 3) :
    (recipes_by_ingredient (some k) B P req2).1 = .success resp2 := by
  rw [recipes_by_ingredient_success hk hB hP hV]

/-- Witness for C7: a two-recipe reply passes validation and yields 200. -/
theorem recipe_count_not_enforced_witness :
    (recipes_by_ingredient (some "sk-test") (fun _ => Except.ok wEnvelope)
        (fun _ => some wTwoRecipesJson) wIngReq).1 = .success wTwoRecipesResp :=
  recipe_count_not_enforced "sk-test" (fun _ => Except.ok wEnvelope)
    (fun _ => some wTwoRecipesJson) wIngReq wEnvelope wTwoRecipesJson wTwoRecipesResp
    (by decide) rfl rfl rfl (by decide)

/-- C8 counterexample: a successful invocation whose returned ingredient
("beans") differs from the request's ingredient ("chickpeas") — the echo is a
prompt instruction, not a locally enforced invariant. -/
theorem ingredient_echo_counterexample :
    (recipes_by_ingredient (some "sk-test") (fun _ => Except.ok wEnvelope)
        (fun _ => some (Json.obj [("ingredient", Json.str "beans"), ("recipes", Json.arr [])]))
        ⟨"chickpeas", none, none, none, some 1⟩).1
      = .success ⟨"beans", []⟩ ∧ ("beans" : String) ≠ "chickpeas" :=
  ⟨rfl, by decide⟩

/-- C8 (amended): on success the returned `ingredient` equals the ingredient
string carried by the model's parsed JSON reply — the prompt asks the model to
echo the request's ingredient, but equality with the request is not locally
enforced. -/
theorem ingredient_echoes_parsed_reply
    (k : String) (B : CreateArgs → Except String Envelope) (P : String → Option Json)
    (req2 : IngredientRecipeRequest) (r2 : Envelope) (d2 : Json)
    (resp2 : IngredientRecipeResponse)
    (hk : k ≠ "") (hB : B (recipesCreateArgs req2) = .ok r2)
    (hP : P (extractText r2) = some d2)
    (hV : IngredientRecipeResponse.validate d2 = some resp2) :
    (recipes_by_ingredient (some k) B P req2).1 = .success resp2 ∧
    d2.getField "ingredient" = some (.str resp2.ingredient) :=
  ⟨by rw [recipes_by_ingredient_success hk hB hP hV],
   (ingredientRecipeResponse_validate_characterization.mp hV).1⟩

/-- Witness for C8 (amended). -/
theorem ingredient_echoes_parsed_reply_witness :
    (recipes_by_ingredient (some "sk-test") (fun _ => Except.ok wEnvelope)
        (fun _ => some wTwoRecipesJson) wIngReq).1 = .success wTwoRecipesResp ∧
    wTwoRecipesJson.getField "ingredient" = some (.str wTwoRecipesResp.ingredient) :=
  ingredient_echoes_parsed_reply "sk-test" (fun _ => Except.ok wEnvelope)
    (fun _ => some wTwoRecipesJson) wIngReq wEnvelope wTwoRecipesJson wTwoRecipesResp
    (by decide) rfl rfl rfl

/-- C9: whenever the credential check passes, each handler makes exactly one
outbound boundary call, whatever the boundary, parser or validation outcome —
no retry edge exists. -/
theorem exactly_one_outbound_call
    (k : String) (B : CreateArgs → Except String Envelope) (P : String → Option Json)
    (req : RecommendationRequest) (req2 : IngredientRecipeRequest) (hk : k ≠ "") :
    ((recommendations (some k) B P req).2).length = 1 ∧
    ((recipes_by_ingredient (some k) B P req2).2).length = 1 := by
  rw [recommendations_trace hk B P req, recipes_by_ingredient_trace hk B P req2]
  exact ⟨rfl, rfl⟩

/-- Witness for C9: exactly one call even when the boundary call fails. -/
theorem exactly_one_outbound_call_witness :
    ((recommendations (some "sk-test") (fun _ => Except.error "rate limited")
        (fun _ => none) wRecReq).2).length = 1 :=
  (exactly_one_outbound_call "sk-test" (fun _ => Except.error "rate limited") (fun _ => none)
    wRecReq wIngReq (by decide)).1

/-- C10: for either POST handler, a parsed reply carrying all required keys
with in-bound values plus an additional unexpected key validates to the same
response as without that key (the extra key is silently dropped) and the
handler returns HTTP 200. -/
theorem extra_keys_ignored
    (k : String) (B : CreateArgs → Except String Envelope) (P : String → Option Json)
    (req : RecommendationRequest) (req2 : IngredientRecipeRequest)
    (fields fields2 : List (String × Json)) (key key2 : String) (v v2 : Json)
    (r r2 : Envelope) (resp : RecommendationResponse) (resp2 : IngredientRecipeResponse)
    (hk : k ≠ "") :
    (key ≠ "breakfast" → key ≠ "lunch" → key ≠ "dinner" →
      key ≠ "totalCalories" → key ≠ "nutrients" →
      B (recommendationsCreateArgs req) = .ok r →
      P (extractText r) = some (.obj (fields ++ [(key, v)])) →
      RecommendationResponse.validate (.obj fields) = some resp →
      RecommendationResponse.validate (.obj (fields ++ [(key, v)]))
        = RecommendationResponse.validate (.obj fields) ∧
      (recommendations (some k) B P req).1 = .success resp) ∧
    (key2 ≠ "ingredient" → key2 ≠ "recipes" →
      B (recipesCreateArgs req2) = .ok r2 →
      P (extractText r2) = some (.obj (fields2 ++ [(key2, v2)])) →
      IngredientRecipeResponse.validate (.obj fields2) = some resp2 →
      IngredientRecipeResponse.validate (.obj (fields2 ++ [(key2, v2)]))
        = IngredientRecipeResponse.validate (.obj fields2) ∧
      (recipes_by_ingredient (some k) B P req2).1 = .success resp2) := by
  constructor
  · intro k1 k2 k3 k4 k5 hB hP hV
    have hcongr : RecommendationResponse.validate (.obj (fields ++ [(key, v)]))
        = RecommendationResponse.validate (.obj fields) :=
      recommendationResponse_validate_congr
        (lookupField_append_single fields "breakfast" key v k1)
        (lookupField_append_single fields "lunch" key v k2)
        (lookupField_append_single fields "dinner" key v k3)
        (lookupField_append_single fields "totalCalories" key v k4)
        (lookupField_append_single fields "nutrients" key v k5)
    exact ⟨hcongr, by rw [recommendations_success hk hB hP (hcongr.trans hV)]⟩
  · intro k1 k2 hB hP hV
    have hcongr : IngredientRecipeResponse.validate (.obj (fields2 ++ [(key2, v2)]))
        = IngredientRecipeResponse.validate (.obj fields2) :=
      ingredientRecipeResponse_validate_congr
        (lookupField_append_single fields2 "ingredient" key2 v2 k1)
        (lookupField_append_single fields2 "recipes" key2 v2 k2)
    exact ⟨hcongr, by rw [recipes_by_ingredient_success hk hB hP (hcongr.trans hV)]⟩

/-- Witness for C10: for each handler an extra "note" key is dropped and the
handler succeeds. -/
theorem extra_keys_ignored_witness :
    ((recommendations (some "sk-test") (fun _ => Except.ok wEnvelope)
        (fun _ => some (.obj (wGoodRecFields ++ [("note", Json.str "enjoy")]))) wRecReq).1
      = .success wGoodRecResp) ∧
    ((recipes_by_ingredient (some "sk-test") (fun _ => Except.ok wEnvelope)
        (fun _ => some (.obj (wTwoRecipesFields ++ [("note", Json.str "enjoy")]))) wIngReq).1
      = .success wTwoRecipesResp) :=
  ⟨((extra_keys_ignored "sk-test" (fun _ => Except.ok wEnvelope)
      (fun _ => some (.obj (wGoodRecFields ++ [("note", Json.str "enjoy")]))) wRecReq wIngReq
      wGoodRecFields wTwoRecipesFields "note" "note" (Json.str "enjoy") (Json.str "enjoy")
      wEnvelope wEnvelope wGoodRecResp wTwoRecipesResp (by decide)).1
      (by decide) (by decide) (by decide) (by decide) (by decide) rfl rfl rfl).2,
   ((extra_keys_ignored "sk-test" (fun _ => Except.ok wEnvelope)
      (fun _ => some (.obj (wTwoRecipesFields ++ [("note", Json.str "enjoy")]))) wRecReq wIngReq
      wGoodRecFields wTwoRecipesFields "note" "note" (Json.str "enjoy") (Json.str "enjoy")
      wEnvelope wEnvelope wGoodRecResp wTwoRecipesResp (by decide)).2
      (by decide) (by decide) rfl rfl rfl).2⟩

end HealthyMe
